import Mathlib

/-!
A shallow embedding of `Scraper_Steam_Public_View.py`, a single-file Steam
public-profile scraper, together with proofs about its extraction logic.

Modelling conventions:
* Python strings are Lean `String`s; the string operations the scraper uses
  (`strip`, `split`, `in`, `re.split(..., maxsplit=1)`, `re.sub`) are
  re-implemented below over `List Char` so that their behaviour is fully
  transparent and kernel-computable.
* The parsed HTML document (`BeautifulSoup` object) is a `Node` tree; the
  BeautifulSoup operations used by the source (`find`, `find_all`, `select`,
  `.text`, `.get`, `[...]`, `.next_sibling`) are modelled as pre-order
  traversals over that tree.
* Python runtime exceptions (`AttributeError`, `IndexError`, `KeyError`,
  `TypeError`) are modelled with `Except String`; code that cannot raise is
  given a total type.
* Python `float` values are modelled as `ℚ`; `float` literal parsing covers
  finite decimal literals (the non-finite literals `inf`/`nan` and digit
  underscores cannot occur in playtime strings and are outside the model).
-/

namespace Scraper

/-! ## Python string primitives -/

/-- Characters treated as whitespace by Python `str.strip()` (ASCII range). -/
def pyIsSpace (c : Char) : Bool :=
  c == ' ' || c == '\t' || c == '\n' || c == '\r' || c == Char.ofNat 11 || c == Char.ofNat 12

/-- Drop characters satisfying `p` from both ends of a character list. -/
def stripWhile (p : Char → Bool) (l : List Char) : List Char :=
  ((l.dropWhile p).reverse.dropWhile p).reverse

/-- Python `s.strip()`. -/
def pyStrip (s : String) : String :=
  String.mk (stripWhile pyIsSpace s.data)

/-- Python `s.strip("\n")` (strips only newline characters). -/
def pyStripNl (s : String) : String :=
  String.mk (stripWhile (fun c => c == '\n') s.data)

/-- Split a character list at the first occurrence of `sep`, returning the
part before the occurrence and the part after it (or `none` when `sep` does
not occur). This is the primitive underlying Python `str.split` and
`re.split(..., maxsplit=1)` below. -/
def splitFirstList (sep : List Char) : List Char → Option (List Char × List Char)
  | [] => if sep.isPrefixOf ([] : List Char) then some ([], []) else none
  | c :: rest =>
    if sep.isPrefixOf (c :: rest) then some ([], (c :: rest).drop sep.length)
    else
      match splitFirstList sep rest with
      | some (p, r) => some (c :: p, r)
      | none => none

/-- Python `s.split(sep)[0]`: the part of `s` before the first occurrence of
`sep`, or all of `s` when `sep` does not occur (`split` always returns a
non-empty list, so indexing with 0 never raises). -/
def pySplitHead (s sep : String) : String :=
  match splitFirstList sep.data s.data with
  | some (p, _) => String.mk p
  | none => s

/-- Python `s.split(sep)[1]`: the segment of `s` between the first and second
occurrences of `sep` (up to the end when there is no second occurrence), or
`none` when `sep` does not occur at all (in which case the Python indexing
raises `IndexError`). -/
def pySplitSecond? (s sep : String) : Option String :=
  match splitFirstList sep.data s.data with
  | some (_, r) => some (pySplitHead (String.mk r) sep)
  | none => none

/-- Python `re.split(pat, s, maxsplit=1)[1]` for a literal pattern: everything
after the first occurrence of `pat`, or `none` when `pat` does not occur. -/
def pyAfterFirst? (s pat : String) : Option String :=
  match splitFirstList pat.data s.data with
  | some (_, r) => some (String.mk r)
  | none => none

/-- Python `sub in s` (substring containment). -/
def pyContains (s sub : String) : Bool :=
  (splitFirstList sub.data s.data).isSome

/-- Numeric value of a list of decimal digit characters. -/
def digitsVal (l : List Char) : Nat :=
  l.foldl (fun a c => a * 10 + (c.toNat - 48)) 0

/-- Parse a non-empty list of decimal digits. -/
def parseDigits? (l : List Char) : Option Nat :=
  if l ≠ [] ∧ l.all Char.isDigit then some (digitsVal l) else none

/-- Python `int(s)` returning `none` instead of raising `ValueError`. -/
def pyInt? (s : String) : Option Int :=
  match stripWhile pyIsSpace s.data with
  | '+' :: r => (parseDigits? r).map Int.ofNat
  | '-' :: r => (parseDigits? r).map (fun n => -(n : Int))
  | r => (parseDigits? r).map Int.ofNat

/-- Parse the mantissa of a float literal: digits with an optional single
decimal point, at least one digit overall. -/
def parseMant? (l : List Char) : Option ℚ :=
  match l.span (fun c => c != '.') with
  | (i, []) => (parseDigits? i).map (fun n => (n : ℚ))
  | (i, _ :: f) =>
    if (i.all Char.isDigit) && (f.all Char.isDigit) &&
        (!i.isEmpty || !f.isEmpty) && (!f.contains '.') then
      some ((digitsVal i : ℚ) + (digitsVal f : ℚ) / (10 : ℚ) ^ f.length)
    else none

/-- Parse an exponent part (an optionally signed decimal integer). -/
def parseExp? (l : List Char) : Option Int :=
  match l with
  | '+' :: r => (parseDigits? r).map Int.ofNat
  | '-' :: r => (parseDigits? r).map (fun n => -(n : Int))
  | r => (parseDigits? r).map Int.ofNat

/-- Python `float(s)` returning `none` instead of raising `ValueError`,
for finite decimal literals (optional sign, digits with an optional decimal
point, optional exponent). -/
def pyFloat? (s : String) : Option ℚ :=
  let cs := stripWhile pyIsSpace s.data
  let (sgn, cs) : ℚ × List Char :=
    match cs with
    | '+' :: r => (1, r)
    | '-' :: r => (-1, r)
    | r => (1, r)
  match cs.span (fun c => c != 'e' && c != 'E') with
  | (m, []) => (parseMant? m).map (fun q => sgn * q)
  | (m, _ :: e) =>
    match parseMant? m, parseExp? e with
    | some q, some ex => some (sgn * q * (10 : ℚ) ^ ex)
    | _, _ => none

/-- Python `re.sub(r"\D", "", s)`: keep only the decimal digit characters. -/
def digitsOnly (s : String) : String :=
  String.mk (s.data.filter Char.isDigit)

/-- Split a character list into maximal whitespace-free tokens (used for the
HTML `class` attribute, which is whitespace-separated). -/
def splitWSAux : List Char → List Char → List (List Char)
  | [], cur => if cur.isEmpty then [] else [cur.reverse]
  | c :: r, cur =>
    if pyIsSpace c then
      if cur.isEmpty then splitWSAux r [] else cur.reverse :: splitWSAux r []
    else splitWSAux r (c :: cur)

/-- The whitespace-separated tokens of a `class` attribute value. -/
def classTokens (s : String) : List String :=
  (splitWSAux s.data []).map String.mk

/-! ## The document tree (parsed markup) -/

/-- A parsed HTML node: an element with a tag name, attributes and children,
or a text node (`NavigableString`). The `BeautifulSoup` document is the root
`Node`; `find`/`find_all`/`select` search its descendants in document
(pre-order) order, exactly as BeautifulSoup does. -/
inductive Node where
  | elem (tag : String) (attrs : List (String × String)) (children : List Node)
  | text (s : String)

mutual

/-- All descendants of a node in document (pre-order) order. -/
def Node.descendants : Node → List Node
  | .text _ => []
  | .elem _ _ cs => descendantsList cs

/-- Descendant lists of a forest, in document order. -/
def descendantsList : List Node → List Node
  | [] => []
  | c :: cs => c :: (Node.descendants c ++ descendantsList cs)

end

mutual

/-- BeautifulSoup `.text` / `get_text()`: the concatenation of all string
descendants in document order. -/
def Node.innerText : Node → String
  | .text s => s
  | .elem _ _ cs => innerTextList cs

/-- Concatenated text of a forest. -/
def innerTextList : List Node → String
  | [] => ""
  | c :: cs => c.innerText ++ innerTextList cs

end

/-- Attribute lookup (`tag.get(name)` / `tag[name]` presence). -/
def Node.attr? : Node → String → Option String
  | .elem _ attrs _, name => (attrs.find? (fun a => a.1 == name)).map (fun a => a.2)
  | .text _, _ => none

/-- Tag-name test. -/
def Node.tagIs (t : String) : Node → Bool
  | .elem tg _ _ => tg == t
  | .text _ => false

/-- Python truthiness of a BeautifulSoup node: a `Tag` is truthy, a
`NavigableString` (a `str` subclass) is truthy when non-empty. -/
def nodeTruthy : Node → Bool
  | .text s => s != ""
  | .elem _ _ _ => true

/-- BeautifulSoup `class_=pat` matching: `pat` matches when it equals one of
the whitespace-separated class tokens, or the full (token-joined) class
value; elements without a `class` attribute never match. -/
def matchesClass (pat : String) (n : Node) : Bool :=
  match n.attr? "class" with
  | none => false
  | some raw =>
    (classTokens raw).contains pat || String.intercalate " " (classTokens raw) == pat

/-- Matcher for `find(tag, class_=cls)`. -/
def isTagClass (t cls : String) (n : Node) : Bool :=
  n.tagIs t && matchesClass cls n

/-- First descendant satisfying `p`, in document order (`find`). -/
def Node.findFirst (p : Node → Bool) (n : Node) : Option Node :=
  n.descendants.find? p

/-- All descendants satisfying `p`, in document order (`find_all`). -/
def Node.findAllD (p : Node → Bool) (n : Node) : List Node :=
  n.descendants.filter p

mutual

/-- Pre-order search for the first node satisfying `p`, returning it together
with its `next_sibling` (the node immediately after it in its parent's child
list, or `none` at the end of that list). -/
def findWithNext (p : Node → Bool) : Node → Option (Node × Option Node)
  | .text _ => none
  | .elem _ _ cs => findWithNextList p cs

/-- Helper of `findWithNext` on a child list. -/
def findWithNextList (p : Node → Bool) : List Node → Option (Node × Option Node)
  | [] => none
  | c :: cs =>
    if p c then some (c, cs.head?)
    else
      match findWithNext p c with
      | some x => some x
      | none => findWithNextList p cs

end

/-- CSS selector `select("div[class^='pref']")`: all descendant `div`
elements whose raw `class` attribute value starts with `pref`. -/
def Node.selectDivClassPrefix (pref : String) (n : Node) : List Node :=
  n.descendants.filter
    (fun c =>
      c.tagIs "div" &&
        (match c.attr? "class" with
         | some s => pref.data.isPrefixOf s.data
         | none => false))

/-! ## Locator resolution (`get_profile_url`, source lines 18-32) -/

/-- `get_profile_url`: return the input unchanged when it contains
`steamcommunity.com`, otherwise log a warning and return `None`. -/
def get_profile_url (input_text : String) : Option String :=
  if pyContains input_text "steamcommunity.com" then some input_text else none

/-! ## Basic profile extraction (`extract_basic_profile_info`, lines 34-132) -/

/-- The dictionary built by `extract_basic_profile_info` (lines 44-55); the
`recent_activity` and `profile_description` entries are always strings by the
time the function returns, because `None` is replaced by `"N/A"`
(lines 120-121 and 127-128). -/
structure BasicProfile where
  name : Option String
  level : Option Int
  location : Option String
  status : Option String
  avatar_url : Option String
  background_url : Option String
  number_of_badges : Option String
  total_games : Option String
  recent_activity : String
  profile_description : String
deriving DecidableEq

/-- Lines 57-60: profile name. -/
def nameOf (soup : Node) : Option String :=
  (soup.findFirst (isTagClass "span" "actual_persona_name")).map
    (fun n => pyStrip n.innerText)

/-- Lines 62-68: profile level; an unparseable integer is caught
(`ValueError`) and leaves the field unset. -/
def levelOf (soup : Node) : Option Int :=
  (soup.findFirst (isTagClass "span" "friendPlayerLevelNum")).bind
    (fun n => pyInt? (pyStrip n.innerText))

/-- Lines 70-73: country. The guard checks both the flag image and its next
sibling for truthiness; calling `.strip()` on a sibling that is an element
(not a string) raises `AttributeError`. -/
def locationOf (soup : Node) : Except String (Option String) :=
  match findWithNext (isTagClass "img" "profile_flag") soup with
  | some (_, some sib) =>
    if nodeTruthy sib then
      match sib with
      | .text s => .ok (some (pyStrip s))
      | .elem _ _ _ => .error "AttributeError: Tag object has no attribute strip"
    else .ok none
  | _ => .ok none

/-- Lines 75-78: online status. -/
def statusOf (soup : Node) : Option String :=
  (soup.findFirst (isTagClass "div" "profile_in_game_header")).map
    (fun n => pyStrip n.innerText)

/-- Lines 80-85: avatar URL (`avatar_img.get("src")` may itself be `None`). -/
def avatarOf (soup : Node) : Option String :=
  ((soup.findFirst (isTagClass "div" "playerAvatarAutoSizeInner")).bind
    (fun c => c.findFirst (Node.tagIs "img"))).bind
    (fun img => img.attr? "src")

/-- Lines 87-94: background URL. -/
def backgroundOf (soup : Node) : Option String :=
  (((soup.findFirst (isTagClass "div" "profile_animated_background")).bind
    (fun c => c.findFirst (Node.tagIs "video"))).bind
    (fun v => v.findFirst (Node.tagIs "source"))).bind
    (fun s => s.attr? "src")

/-- Lines 96-99: total number of badges. The lookup dereferences
`soup.find("div", class_="profile_badges")` and then
`.find("span", class_="profile_count_link_total")` without `None` checks, so
a missing container raises `AttributeError`; the `if badge_container:` guard
only rejects an empty (falsy) string. -/
def numberOfBadgesOf (soup : Node) : Except String (Option String) :=
  match soup.findFirst (isTagClass "div" "profile_badges") with
  | none => .error "AttributeError: NoneType object has no attribute find"
  | some bd =>
    match bd.findFirst (isTagClass "span" "profile_count_link_total") with
    | none => .error "AttributeError: NoneType object has no attribute text"
    | some sp =>
      let badge_container := pyStrip sp.innerText
      .ok (if badge_container == "" then none else some badge_container)

/-- Matcher of line 103: `find("a", href=lambda x: x and 'games/?tab=all' in x)`.
BeautifulSoup calls the filter with the attribute value, or `None` when the
attribute is absent; the lambda requires a truthy (non-empty) value that
contains the substring. -/
def isGamesTabLink (n : Node) : Bool :=
  n.tagIs "a" &&
    (match n.attr? "href" with
     | some h => h != "" && pyContains h "games/?tab=all"
     | none => false)

/-- Second method (lines 108-114): the loop over the badge preview runs
unconditionally; the first badge whose tooltip contains `games owned` sets
`total_games` to the digit characters of that tooltip (`re.sub`) and breaks,
overwriting whatever value `tg1` the first method left in the dictionary;
when no badge matches, the first method's value stands. Chained `find` calls
on missing containers raise `AttributeError`. -/
def totalGamesSecond (soup : Node) (tg1 : Option String) : Except String (Option String) :=
  match soup.findFirst (isTagClass "div" "profile_badges") with
  | none => .error "AttributeError: NoneType object has no attribute find"
  | some bd =>
    match bd.findFirst (isTagClass "div" "profile_count_link_preview") with
    | none => .error "AttributeError: NoneType object has no attribute find_all"
    | some pv =>
      match (pv.findAllD (isTagClass "div" "profile_badges_badge")).find?
          (fun b => pyContains ((b.attr? "data-tooltip-html").getD "") "games owned") with
      | some b => .ok (some (digitsOnly ((b.attr? "data-tooltip-html").getD "")))
      | none => .ok tg1

/-- Lines 101-114: total number of games. First method (lines 103-106): the
trimmed count-span text of the games-tab link, when that link exists (a link
without the count span raises `AttributeError`); then the second method runs
on the value the first method left. A missing `profile_item_links` container
raises `AttributeError` (line 103 dereferences it without a check). -/
def totalGamesOf (soup : Node) : Except String (Option String) :=
  match soup.findFirst (isTagClass "div" "profile_item_links") with
  | none => .error "AttributeError: NoneType object has no attribute find"
  | some linksDiv =>
    match linksDiv.findFirst isGamesTabLink with
    | some gt =>
      match gt.findFirst (isTagClass "span" "profile_count_link_total") with
      | none => .error "AttributeError: NoneType object has no attribute text"
      | some sp => totalGamesSecond soup (some (pyStrip sp.innerText))
    | none => totalGamesSecond soup none

/-- The games-tab sourcing strategy on its own (lines 103-106), as an
`Option`: the trimmed count-span text when the tab link and its count span
are present. -/
def gamesTabCount (soup : Node) : Option String :=
  ((soup.findFirst (isTagClass "div" "profile_item_links")).bind
    (fun l => l.findFirst isGamesTabLink)).bind
    (fun gt =>
      (gt.findFirst (isTagClass "span" "profile_count_link_total")).map
        (fun sp => pyStrip sp.innerText))

/-- The badge sourcing strategy on its own (lines 108-114), as an `Option`:
the tooltip of the first badge in the badge preview whose tooltip contains
`games owned`. -/
def gamesOwnedTooltip (soup : Node) : Option String :=
  (((soup.findFirst (isTagClass "div" "profile_badges")).bind
    (fun bd => bd.findFirst (isTagClass "div" "profile_count_link_preview"))).bind
    (fun pv =>
      (pv.findAllD (isTagClass "div" "profile_badges_badge")).find?
        (fun b => pyContains ((b.attr? "data-tooltip-html").getD "") "games owned"))).map
    (fun b => (b.attr? "data-tooltip-html").getD "")

/-- Lines 116-121: recent activity, defaulted to `"N/A"` when absent; note
the `strip("\n")` strips newlines only. -/
def recentActivityOf (soup : Node) : String :=
  match soup.findFirst (isTagClass "div" "recentgame_quicklinks recentgame_recentplaytime") with
  | some n => pyStripNl n.innerText
  | none => "N/A"

/-- Lines 123-128: profile description, defaulted to `"N/A"` when absent. -/
def descriptionOf (soup : Node) : String :=
  match soup.findFirst (isTagClass "div" "profile_summary") with
  | some n => pyStrip n.innerText
  | none => "N/A"

/-- `extract_basic_profile_info` (lines 34-132). The three fallible steps
(country sibling, badge count, total games) are sequenced in source order;
any raised exception aborts the function (it is caught only by the top-level
handler in `scrape_steam_profile`). -/
def extract_basic_profile_info (soup : Node) : Except String BasicProfile :=
  match locationOf soup with
  | .error e => .error e
  | .ok location =>
    match numberOfBadgesOf soup with
    | .error e => .error e
    | .ok number_of_badges =>
      match totalGamesOf soup with
      | .error e => .error e
      | .ok total_games =>
        .ok { name := nameOf soup
              level := levelOf soup
              location := location
              status := statusOf soup
              avatar_url := avatarOf soup
              background_url := backgroundOf soup
              number_of_badges := number_of_badges
              total_games := total_games
              recent_activity := recentActivityOf soup
              profile_description := descriptionOf soup }

/-! ## Games and playtime (`extract_games_and_playtime`, lines 134-167) -/

/-- One entry of the games list (line 165). -/
structure GameEntry where
  name : String
  hours_played : Option ℚ
deriving DecidableEq

/-- The body of the loop of lines 148-165 for one `recent_game` element:
`none` models the `continue` when no `game_name` child exists; a playtime
whose text does not parse as a float after truncating at `" hrs"` is caught
(`ValueError`) and leaves `hours_played` unset. -/
def processGame (game : Node) : Option GameEntry :=
  match game.findFirst (isTagClass "div" "game_name") with
  | none => none
  | some nameDiv =>
    let game_name := pyStrip nameDiv.innerText
    let hours_played :=
      match game.findFirst (isTagClass "div" "game_info_details") with
      | some hoursDiv => pyFloat? (pyStrip (pySplitHead hoursDiv.innerText " hrs"))
      | none => none
    some { name := game_name, hours_played := hours_played }

/-- One loop step of lines 148-165: append the entry and accumulate the
parsed playtime into the running total. -/
def gameStep (acc : List GameEntry × ℚ) (game : Node) : List GameEntry × ℚ :=
  match processGame game with
  | none => acc
  | some e => (acc.1 ++ [e], acc.2 + e.hours_played.getD 0)

/-- `extract_games_and_playtime` (lines 134-167): fold the loop over all
`recent_game` elements, starting from the empty list and a zero total. This
function is total: the only possible exception (`ValueError` from `float`)
is caught per item inside the loop. -/
def extract_games_and_playtime (soup : Node) : List GameEntry × ℚ :=
  (soup.findAllD (isTagClass "div" "recent_game")).foldl gameStep ([], 0)

/-! ## Friends (`extract_friends`, lines 169-202) -/

/-- The tuple returned by `extract_friends` (line 202). -/
structure FriendsResult where
  total_friends : String
  friends_names : List String
  friends_links : List String
  friends_status : List String
  friends_in_game : List (Option String)
deriving DecidableEq

/-- The exact multi-token class of the friends-count container (line 183). -/
def friendsLinksClass : String :=
  "profile_friend_links profile_count_link_preview_ctn responsive_groupfriends_element"

/-- Lines 190 and 194-200 applied to the third line (`friend_name[2]`) of a
friend block's text: the status and the currently-played game. When the
stripped line contains `In-Game`, the status is the constant `"In-Game"` and
the game is `re.split(r"In-Game", ..., maxsplit=1)[1]` — everything after the
first occurrence of the marker, with no further stripping; otherwise the
status is the stripped line and the game is `None`. -/
def classifyStatus (line2 : String) : String × Option String :=
  let st := pyStrip line2
  if pyContains st "In-Game" then
    ("In-Game", pyAfterFirst? st "In-Game")
  else
    (st, none)

/-- `friend_name[0]` and `friend_name[2]` of
`friend.find("div", class_="friendBlockContent").text.strip().split("\n")`:
`none` when the split has fewer than three elements, in which case the
Python indexing raises `IndexError`. -/
def firstAndThirdLine? (s : String) : Option (String × String) :=
  match splitFirstList ['\n'] s.data with
  | none => none
  | some (p0, r0) =>
    match splitFirstList ['\n'] r0 with
    | none => none
    | some (_, r1) => some (String.mk p0, pySplitHead (String.mk r1) "\n")

/-- The loop body of lines 187-200 for one friend block, producing
`(link, name, status, in_game)`. A missing `<a>` makes `friend_content["href"]`
raise `TypeError`; a missing `href` raises `KeyError`; a missing content div
raises `AttributeError`; fewer than three text lines raise `IndexError`. -/
def processFriend (friend : Node) : Except String (String × String × String × Option String) :=
  match friend.findFirst (Node.tagIs "a") with
  | none => .error "TypeError: NoneType object is not subscriptable"
  | some a =>
    match a.attr? "href" with
    | none => .error "KeyError: href"
    | some href =>
      match friend.findFirst (isTagClass "div" "friendBlockContent") with
      | none => .error "AttributeError: NoneType object has no attribute text"
      | some contentDiv =>
        match firstAndThirdLine? (pyStrip contentDiv.innerText) with
        | none => .error "IndexError: list index out of range"
        | some (line0, line2) =>
          let sg := classifyStatus line2
          .ok (href, line0, sg.1, sg.2)

/-- Run the loop of lines 187-200 over all friend blocks; the first raised
exception aborts the whole extraction. -/
def mapFriends : List Node → Except String (List (String × String × String × Option String))
  | [] => .ok []
  | f :: fs =>
    match processFriend f with
    | .error e => .error e
    | .ok r =>
      match mapFriends fs with
      | .error e => .error e
      | .ok rs => .ok (r :: rs)

/-- `extract_friends` (lines 169-202). The friends-count lookup (line 183)
and the top-friends container lookup (lines 185-186) dereference their
containers without `None` checks, so a missing container raises. -/
def extract_friends (soup : Node) : Except String FriendsResult :=
  match soup.findFirst (isTagClass "div" friendsLinksClass) with
  | none => .error "AttributeError: NoneType object has no attribute find"
  | some linksDiv =>
    match linksDiv.findFirst (isTagClass "span" "profile_count_link_total") with
    | none => .error "AttributeError: NoneType object has no attribute text"
    | some totSpan =>
      let total_friends := pyStrip totSpan.innerText
      match soup.findFirst (isTagClass "div" "profile_topfriends profile_count_link_preview") with
      | none => .error "AttributeError: NoneType object has no attribute select"
      | some topDiv =>
        match mapFriends (topDiv.selectDivClassPrefix "friendBlock persona") with
        | .error e => .error e
        | .ok results =>
          .ok { total_friends := total_friends
                friends_names := results.map (fun r => r.2.1)
                friends_links := results.map (fun r => r.1)
                friends_status := results.map (fun r => r.2.2.1)
                friends_in_game := results.map (fun r => r.2.2.2) }

/-! ## Years of service (`extract_years_of_service`, lines 204-218) -/

/-- Matcher of line 214: a `div` whose `data-tooltip-html` attribute is
present, truthy and contains `Years of Service`. -/
def isYearsBadge (n : Node) : Bool :=
  n.tagIs "div" &&
    (match n.attr? "data-tooltip-html" with
     | some x => x != "" && pyContains x "Years of Service"
     | none => false)

/-- `extract_years_of_service` (lines 204-218): when the badge is found, the
tooltip is split on `"Member since "` and indexed at 1 — which raises
`IndexError` when that substring is absent — and the result is cut at the
first period; when no badge is found, the function returns `None`. -/
def extract_years_of_service (soup : Node) : Except String (Option String) :=
  match soup.findFirst isYearsBadge with
  | some badge =>
    let tooltip_html := (badge.attr? "data-tooltip-html").getD ""
    match pySplitSecond? tooltip_html "Member since " with
    | none => .error "IndexError: list index out of range"
    | some seg => .ok (some (pySplitHead seg "."))
  | none => .ok none

/-! ## Pipeline (`scrape_steam_profile`, lines 220-271) -/

/-- The transport collaborator's answer: a status code and the parsed
document (`BeautifulSoup(response.text, 'html.parser')` is abstracted into
the response carrying the already-parsed tree). -/
structure HttpResponse where
  status_code : Nat
  soup : Node

/-- The value of the `total_playtime_hours_on_recent_games` entry after
lines 251-253: the string sentinel `"N/A"` when the accumulated total
equals 0, otherwise the numeric total. -/
inductive PlaytimeVal where
  | na
  | num (q : ℚ)
deriving DecidableEq

/-- The full profile dictionary assembled by `scrape_steam_profile`
(lines 246-265). -/
structure ProfileRecord where
  name : Option String
  level : Option Int
  location : Option String
  status : Option String
  avatar_url : Option String
  background_url : Option String
  number_of_badges : Option String
  total_games : Option String
  recent_activity : String
  profile_description : String
  games : List GameEntry
  total_playtime_hours_on_recent_games : PlaytimeVal
  total_friends : String
  friends_names : List String
  friends_links : List String
  friends_status : List String
  friends_in_game : List (Option String)
  date_of_creation : Option String
deriving DecidableEq

/-- The result of a run: the error dictionary `{"error": msg}` or the
profile dictionary. -/
inductive ScrapeResult where
  | error (msg : String)
  | ok (record : ProfileRecord)
deriving DecidableEq

/-- The body of the `try` block of lines 238-267 after the status check:
run the four extraction stages in source order; the first exception aborts.
`extract_games_and_playtime` cannot raise. -/
def buildRecord (soup : Node) : Except String ProfileRecord :=
  match extract_basic_profile_info soup with
  | .error e => .error e
  | .ok basic =>
    let gp := extract_games_and_playtime soup
    let total_playtime := if gp.2 = 0 then PlaytimeVal.na else PlaytimeVal.num gp.2
    match extract_friends soup with
    | .error e => .error e
    | .ok fr =>
      match extract_years_of_service soup with
      | .error e => .error e
      | .ok date_of_creation =>
        .ok { name := basic.name
              level := basic.level
              location := basic.location
              status := basic.status
              avatar_url := basic.avatar_url
              background_url := basic.background_url
              number_of_badges := basic.number_of_badges
              total_games := basic.total_games
              recent_activity := basic.recent_activity
              profile_description := basic.profile_description
              games := gp.1
              total_playtime_hours_on_recent_games := total_playtime
              total_friends := fr.total_friends
              friends_names := fr.friends_names
              friends_links := fr.friends_links
              friends_status := fr.friends_status
              friends_in_game := fr.friends_in_game
              date_of_creation := date_of_creation }

/-- `scrape_steam_profile` (lines 220-271), with the HTTP client as an
explicit collaborator. `if not profile_url` is Python falsiness: `None` or
the empty string. A non-200 status short-circuits with an error message
containing the code; any exception raised while parsing is converted into an
error result (lines 269-271). -/
def scrape_steam_profile (fetch : String → HttpResponse) (input_text : String) :
    ScrapeResult :=
  match get_profile_url input_text with
  | none => .error "Could not find profile"
  | some profile_url =>
    if profile_url == "" then .error "Could not find profile"
    else
      let response := fetch profile_url
      if response.status_code != 200 then
        .error ("Failed to access profile. Status code: " ++ toString response.status_code)
      else
        match buildRecord response.soup with
        | .ok r => .ok r
        | .error e => .error ("Error parsing profile data: " ++ e)

/-! ## CSV writer (`save_to_csv`, lines 273-311) -/

/-- The header row of lines 288-289 (17 columns). -/
def csvHeader : List String :=
  ["Name", "Level", "Location", "Status", "Total Games", "Total Badges",
   "Total Friends", "Avatar URL", "Background URL",
   "Total Playtime Hours on Recent Games", "Date of Creation",
   "Recent Activity", "Profile Description", "Top Friends Names",
   "Top Friends Profile Links", "Top Friends Online Status",
   "Top Friends Current Game Playing (if any)"]

/-- A single-quote character, for Python `repr` of strings. -/
def sq : String := (Char.ofNat 39).toString

/-- Python `str(list_of_strings)` as written by `csv.writer` (quote escaping
inside elements is abstracted). -/
def pyListRepr (xs : List String) : String :=
  "[" ++ String.intercalate ", " xs ++ "]"

/-- `csv.writer` rendering of a possibly-`None` string cell (`None` becomes
the empty cell). -/
def cellOptStr : Option String → String
  | none => ""
  | some s => s

/-- `csv.writer` rendering of a possibly-`None` integer cell. -/
def cellOptInt : Option Int → String
  | none => ""
  | some i => toString i

/-- Rendering of the playtime cell; the precise decimal formatting of a
Python float is abstracted by the `ℚ` `toString`. -/
def cellPlaytime : PlaytimeVal → String
  | .na => "N/A"
  | .num q => toString q

/-- Python `repr` of a string element inside a list. -/
def pyReprStr (s : String) : String := sq ++ s ++ sq

/-- Python `repr` of an optional string element (`None` or quoted). -/
def pyReprOptStr : Option String → String
  | none => "None"
  | some s => pyReprStr s

/-- The data row of lines 291-309: one cell per `.get(...)` in source order
(17 cells; note the source writes `total_games` under the `Total Games`
header and `number_of_badges` under `Total Badges`). -/
def csvRow (p : ProfileRecord) : List String :=
  [cellOptStr p.name,
   cellOptInt p.level,
   cellOptStr p.location,
   cellOptStr p.status,
   cellOptStr p.total_games,
   cellOptStr p.number_of_badges,
   p.total_friends,
   cellOptStr p.avatar_url,
   cellOptStr p.background_url,
   cellPlaytime p.total_playtime_hours_on_recent_games,
   cellOptStr p.date_of_creation,
   p.recent_activity,
   p.profile_description,
   pyListRepr (p.friends_names.map pyReprStr),
   pyListRepr (p.friends_links.map pyReprStr),
   pyListRepr (p.friends_status.map pyReprStr),
   pyListRepr (p.friends_in_game.map pyReprOptStr)]

/-- `save_to_csv` (lines 273-311) on an abstract file: `none` models a
non-existing target (`os.path.exists` false), in which case the header row
is written first; in every case exactly one data row is appended. The
function returns the new file contents. -/
def save_to_csv (p : ProfileRecord) (file : Option (List (List String))) :
    List (List String) :=
  match file with
  | none => [csvHeader, csvRow p]
  | some rows => rows ++ [csvRow p]

/-- The `__main__` block (lines 313-327): scrape, and only when the result
is not an error dictionary, save it to the CSV file; on an error nothing is
written. Returns the result and the file contents after the run (`none`
still means a non-existing file). -/
def runMain (fetch : String → HttpResponse) (input_text : String)
    (file : Option (List (List String))) :
    ScrapeResult × Option (List (List String)) :=
  match scrape_steam_profile fetch input_text with
  | .ok r => (.ok r, some (save_to_csv r file))
  | .error e => (.error e, file)

/-! ## Concrete documents used as witnesses and counterexamples -/

/-- A document with no profile content at all. -/
def emptyDoc : Node := .elem "html" [] []

/-- A minimal document on which every extraction stage succeeds: the
unconditionally dereferenced containers are present, every optional field's
node is absent, and there are no games and no friend blocks. -/
def fullDoc : Node := .elem "html" []
  [ .elem "div" [("class", "profile_badges")]
      [ .elem "span" [("class", "profile_count_link_total")] [.text "5"],
        .elem "div" [("class", "profile_count_link_preview")] [] ],
    .elem "div" [("class", "profile_item_links")] [],
    .elem "div" [("class", friendsLinksClass)]
      [ .elem "span" [("class", "profile_count_link_total")] [.text "3"] ],
    .elem "div" [("class", "profile_topfriends profile_count_link_preview")] [] ]

/-- The basic-profile dictionary extracted from `fullDoc`. -/
def fullBasic : BasicProfile :=
  { name := none, level := none, location := none, status := none,
    avatar_url := none, background_url := none,
    number_of_badges := some "5", total_games := none,
    recent_activity := "N/A", profile_description := "N/A" }

/-- The full record scraped from `fullDoc`. -/
def fullRecord : ProfileRecord :=
  { name := none, level := none, location := none, status := none,
    avatar_url := none, background_url := none,
    number_of_badges := some "5", total_games := none,
    recent_activity := "N/A", profile_description := "N/A",
    games := [], total_playtime_hours_on_recent_games := .na,
    total_friends := "3", friends_names := [], friends_links := [],
    friends_status := [], friends_in_game := [], date_of_creation := none }

/-- A transport collaborator that always answers 200 with `fullDoc`. -/
def fetchFull : String → HttpResponse := fun _ => ⟨200, fullDoc⟩

/-- A transport collaborator that always answers 404. -/
def fetch404 : String → HttpResponse := fun _ => ⟨404, emptyDoc⟩

/-- A document in which the games-tab strategy yields `"10"` while a badge
tooltip containing `games owned` yields `"5"`. -/
def c2Doc : Node := .elem "html" []
  [ .elem "div" [("class", "profile_item_links")]
      [ .elem "a" [("href", "https://steamcommunity.com/id/u/games/?tab=all")]
          [ .elem "span" [("class", "profile_count_link_total")] [.text "10"] ] ],
    .elem "div" [("class", "profile_badges")]
      [ .elem "span" [("class", "profile_count_link_total")] [.text "3"],
        .elem "div" [("class", "profile_count_link_preview")]
          [ .elem "div" [("class", "profile_badges_badge"),
                         ("data-tooltip-html", "5 games owned")] [] ] ] ]

/-- The basic-profile dictionary extracted from `c2Doc`. -/
def c2Basic : BasicProfile :=
  { name := none, level := none, location := none, status := none,
    avatar_url := none, background_url := none,
    number_of_badges := some "3", total_games := some "5",
    recent_activity := "N/A", profile_description := "N/A" }

/-- A friend block whose status line is exactly the spec example
`In-Game Half-Life 3`. -/
def friendC3 : Node := .elem "div" [("class", "friendBlock persona in-game")]
  [ .elem "a" [("href", "https://steamcommunity.com/id/friend1")] [],
    .elem "div" [("class", "friendBlockContent")]
      [.text "PlayerOne\n\nIn-Game Half-Life 3"] ]

/-- A document containing exactly the friend block `friendC3`. -/
def docC3 : Node := .elem "html" []
  [ .elem "div" [("class", friendsLinksClass)]
      [ .elem "span" [("class", "profile_count_link_total")] [.text "3"] ],
    .elem "div" [("class", "profile_topfriends profile_count_link_preview")]
      [friendC3] ]

/-- The name div of the malformed game entry `gBad`. -/
def nameDivC4 : Node := .elem "div" [("class", "game_name")] [.text "Foo"]

/-- The hours div of `gBad`; `"n/a hrs on record"` truncates to `"n/a"`,
which `float` rejects. -/
def hoursDivC4 : Node := .elem "div" [("class", "game_info_details")]
  [.text "n/a hrs on record"]

/-- A game entry whose duration text does not parse as a float. -/
def gBad : Node := .elem "div" [("class", "recent_game")] [nameDivC4, hoursDivC4]

/-- A document containing only the malformed game entry. -/
def docC4 : Node := .elem "html" [] [gBad]

/-- A years-of-service badge whose tooltip lacks `Member since `. -/
def badgeC5 : Node := .elem "div" [("data-tooltip-html", "10 Years of Service badge")] []

/-- A document containing only `badgeC5`. -/
def docC5 : Node := .elem "html" [] [badgeC5]

/-- A years-of-service badge with a well-formed tooltip. -/
def badgeC5b : Node :=
  .elem "div" [("data-tooltip-html", "Member since June 2015. 10 Years of Service")] []

/-- A document containing only `badgeC5b`. -/
def docC5b : Node := .elem "html" [] [badgeC5b]

/-! ## General lemmas about the string primitives -/

/-- Splitting the empty list at a non-empty separator finds nothing. -/
theorem splitFirstList_nil_of_ne (sep : List Char) (hsep : sep ≠ []) :
    splitFirstList sep [] = none := by
  rw [splitFirstList, if_neg]
  simp [List.isPrefixOf_iff_prefix, List.prefix_nil, hsep]

/-- When `splitFirstList` finds an occurrence, the input decomposes as the
part before, the separator, and the part after — and the part before
contains no occurrence of the separator (the occurrence found is the first). -/
theorem splitFirstList_eq (sep : List Char) (hsep : sep ≠ []) :
    ∀ (l p r : List Char), splitFirstList sep l = some (p, r) →
      l = p ++ sep ++ r ∧ splitFirstList sep p = none := by
  intro l
  induction l with
  | nil =>
    intro p r h
    rw [splitFirstList_nil_of_ne sep hsep] at h
    exact absurd h (by simp)
  | cons c rest ih =>
    intro p r h
    rw [splitFirstList] at h
    by_cases hpre : sep.isPrefixOf (c :: rest) = true
    · rw [if_pos hpre] at h
      simp only [Option.some.injEq, Prod.mk.injEq] at h
      obtain ⟨hp, hr⟩ := h
      subst hp
      subst hr
      obtain ⟨t, ht⟩ := List.isPrefixOf_iff_prefix.mp hpre
      constructor
      · rw [← ht, List.nil_append, List.drop_left]
      · exact splitFirstList_nil_of_ne sep hsep
    · rw [if_neg hpre] at h
      cases hm : splitFirstList sep rest with
      | none => rw [hm] at h; exact absurd h (by simp)
      | some pr =>
        obtain ⟨p', r'⟩ := pr
        rw [hm] at h
        simp only [Option.some.injEq, Prod.mk.injEq] at h
        obtain ⟨hp, hr⟩ := h
        subst hp
        subst hr
        obtain ⟨hrest, hnone⟩ := ih p' r' hm
        refine ⟨by rw [hrest]; simp, ?_⟩
        rw [splitFirstList, if_neg, hnone]
        intro hcon
        apply hpre
        rw [List.isPrefixOf_iff_prefix] at hcon ⊢
        exact hcon.trans ⟨sep ++ r', by rw [hrest]; simp⟩

/-- A list that manifestly contains the separator makes `splitFirstList`
succeed. -/
theorem splitFirstList_isSome_append (sep : List Char) (hsep : sep ≠ []) :
    ∀ (l₁ l₂ : List Char), (splitFirstList sep (l₁ ++ sep ++ l₂)).isSome = true := by
  intro l₁
  induction l₁ with
  | nil =>
    intro l₂
    cases hs : sep with
    | nil => exact absurd hs hsep
    | cons s ss =>
      rw [List.nil_append, List.cons_append, splitFirstList, if_pos]
      · rfl
      · rw [List.isPrefixOf_iff_prefix]
        exact ⟨l₂, by simp⟩
  | cons c l₁ ih =>
    intro l₂
    rw [List.cons_append, List.cons_append, splitFirstList]
    by_cases hpre : sep.isPrefixOf (c :: (l₁ ++ sep ++ l₂)) = true
    · rw [if_pos hpre]; rfl
    · rw [if_neg hpre]
      have hs := ih l₂
      cases hm : splitFirstList sep (l₁ ++ sep ++ l₂) with
      | none => rw [hm] at hs; exact absurd hs (by simp)
      | some pr => obtain ⟨p, r⟩ := pr; rfl

/-- A string of the form `a ++ b` contains `b` whenever `b` is non-empty. -/
theorem pyContains_append_right (a b : String) (hb : b.data ≠ []) :
    pyContains (a ++ b) b = true := by
  rw [pyContains, String.data_append]
  have := splitFirstList_isSome_append b.data hb a.data []
  rwa [List.append_nil] at this

/-- `Nat.toDigitsCore` never returns the empty list when it has fuel or a
non-empty accumulator. -/
theorem toDigitsCore_ne_nil (b : Nat) :
    ∀ (f n : Nat) (l : List Char), l ≠ [] ∨ 0 < f → Nat.toDigitsCore b f n l ≠ [] := by
  intro f
  induction f with
  | zero =>
    intro n l h
    rcases h with h | h
    · simpa [Nat.toDigitsCore] using h
    · exact absurd h (by simp)
  | succ f ih =>
    intro n l _
    rw [Nat.toDigitsCore]
    by_cases hdiv : n / b = 0
    · simp [hdiv]
    · simp only [hdiv, if_false]
      exact ih (n / b) (Nat.digitChar (n % b) :: l) (Or.inl (by simp))

/-- The decimal representation of a natural number is never empty. -/
theorem toString_nat_ne_nil (n : Nat) : (toString n).data ≠ [] := by
  show (Nat.toDigits 10 n).asString.data ≠ []
  show Nat.toDigitsCore 10 (n + 1) n [] ≠ []
  exact toDigitsCore_ne_nil 10 (n + 1) n [] (Or.inr (Nat.succ_pos n))

/-- An input containing the host substring is not the empty string. -/
theorem ne_empty_of_pyContains_host (input : String)
    (h : pyContains input "steamcommunity.com" = true) : (input == "") = false := by
  cases hi : input == ""
  · rfl
  · have : input = "" := eq_of_beq hi
    subst this
    exact absurd h (by decide)

/-- `get_profile_url` only ever returns its own input. -/
theorem get_profile_url_some (input u : String) (h : get_profile_url input = some u) :
    u = input := by
  rw [get_profile_url] at h
  by_cases hc : pyContains input "steamcommunity.com" = true
  · rw [if_pos hc] at h
    exact (Option.some.injEq .. ▸ h).symm
  · rw [if_neg hc] at h
    exact absurd h (by simp)

/-! ## General lemmas about the extraction stages -/

/-- The games loop, folded from any starting state, appends exactly the
per-entry results in order and accumulates the parsed playtimes. -/
theorem foldl_gameStep (l : List Node) :
    ∀ (acc : List GameEntry) (t : ℚ),
      l.foldl gameStep (acc, t) =
        (acc ++ l.filterMap processGame,
         t + ((l.filterMap processGame).filterMap GameEntry.hours_played).sum) := by
  induction l with
  | nil => intro acc t; simp
  | cons g l ih =>
    intro acc t
    rw [List.foldl_cons, List.filterMap_cons]
    cases hg : processGame g with
    | none =>
      rw [gameStep, hg]
      exact ih acc t
    | some e =>
      rw [gameStep, hg]
      rw [ih (acc ++ [e]) (t + e.hours_played.getD 0)]
      cases he : e.hours_played with
      | none =>
        simp [List.filterMap_cons, he]
      | some q =>
        simp [List.filterMap_cons, he, add_assoc]

/-- When the basic extraction succeeds, the returned dictionary is exactly
the field-by-field extraction result. -/
theorem extract_basic_ok (soup : Node) (r : BasicProfile)
    (h : extract_basic_profile_info soup = .ok r) :
    ∃ location number_of_badges total_games,
      locationOf soup = .ok location
      ∧ numberOfBadgesOf soup = .ok number_of_badges
      ∧ totalGamesOf soup = .ok total_games
      ∧ r = { name := nameOf soup, level := levelOf soup, location := location,
              status := statusOf soup, avatar_url := avatarOf soup,
              background_url := backgroundOf soup,
              number_of_badges := number_of_badges, total_games := total_games,
              recent_activity := recentActivityOf soup,
              profile_description := descriptionOf soup } := by
  rw [extract_basic_profile_info] at h
  cases hl : locationOf soup with
  | error e => rw [hl] at h; exact absurd h (by simp)
  | ok location =>
    rw [hl] at h
    cases hb : numberOfBadgesOf soup with
    | error e => rw [hb] at h; exact absurd h (by simp)
    | ok number_of_badges =>
      rw [hb] at h
      cases hg : totalGamesOf soup with
      | error e => rw [hg] at h; exact absurd h (by simp)
      | ok total_games =>
        rw [hg] at h
        simp only [Except.ok.injEq] at h
        exact ⟨location, number_of_badges, total_games, rfl, rfl, rfl, h.symm⟩

/-! ## Claim theorems -/

/-- C9. For every input text token, locator resolution returns the token
itself, unchanged, exactly when the token contains the profile-host
substring `steamcommunity.com`; for every token lacking that substring it
yields the not-found value (`None`) and the overall run result is the
`Could not find profile` error record. -/
theorem locator_resolution_c9 (fetch : String → HttpResponse) (input : String) :
    (get_profile_url input = some input ↔ pyContains input "steamcommunity.com" = true)
    ∧ (pyContains input "steamcommunity.com" = false →
        get_profile_url input = none
        ∧ scrape_steam_profile fetch input = .error "Could not find profile") := by
  constructor
  · constructor
    · intro h
      by_cases hc : pyContains input "steamcommunity.com" = true
      · exact hc
      · rw [get_profile_url, if_neg hc] at h
        exact absurd h (by simp)
    · intro hc
      rw [get_profile_url, if_pos hc]
  · intro hc
    have hgu : get_profile_url input = none := by
      rw [get_profile_url, if_neg (by simp [hc])]
    exact ⟨hgu, by simp only [scrape_steam_profile, hgu]⟩

/-- Witness for C9 at the concrete token `GabeN`, which lacks the host
substring. -/
theorem locator_resolution_c9_witness :
    get_profile_url "GabeN" = none
    ∧ scrape_steam_profile fetch404 "GabeN" = .error "Could not find profile" :=
  (locator_resolution_c9 fetch404 "GabeN").2 (by decide)

/-- C6. For every HTTP response with a status code other than 200, the run's
result is an error record whose message contains that status code, and
nothing is written to the output file for that run. -/
theorem http_status_error_c6 (fetch : String → HttpResponse) (input : String)
    (file : Option (List (List String)))
    (hin : pyContains input "steamcommunity.com" = true)
    (hst : (fetch input).status_code ≠ 200) :
    scrape_steam_profile fetch input =
      .error ("Failed to access profile. Status code: "
        ++ toString (fetch input).status_code)
    ∧ pyContains
        ("Failed to access profile. Status code: "
          ++ toString (fetch input).status_code)
        (toString (fetch input).status_code) = true
    ∧ runMain fetch input file =
        (.error ("Failed to access profile. Status code: "
          ++ toString (fetch input).status_code), file) := by
  have hgu : get_profile_url input = some input := by
    rw [get_profile_url, if_pos hin]
  have hne := ne_empty_of_pyContains_host input hin
  have hbne : ((fetch input).status_code != 200) = true := by simpa using hst
  have hscrape : scrape_steam_profile fetch input =
      .error ("Failed to access profile. Status code: "
        ++ toString (fetch input).status_code) := by
    simp [scrape_steam_profile, hgu, hne, hbne]
  refine ⟨hscrape, ?_, ?_⟩
  · exact pyContains_append_right _ _ (toString_nat_ne_nil _)
  · simp only [runMain, hscrape]

/-- Witness for C6: a 404 answer for a valid profile URL, against a
non-existing output file. -/
theorem http_status_error_c6_witness :
    scrape_steam_profile fetch404 "https://steamcommunity.com/id/x" =
      .error ("Failed to access profile. Status code: "
        ++ toString (fetch404 "https://steamcommunity.com/id/x").status_code)
    ∧ pyContains
        ("Failed to access profile. Status code: "
          ++ toString (fetch404 "https://steamcommunity.com/id/x").status_code)
        (toString (fetch404 "https://steamcommunity.com/id/x").status_code) = true
    ∧ runMain fetch404 "https://steamcommunity.com/id/x" none =
        (.error ("Failed to access profile. Status code: "
          ++ toString (fetch404 "https://steamcommunity.com/id/x").status_code), none) :=
  http_status_error_c6 fetch404 "https://steamcommunity.com/id/x" none
    (by decide) (by decide)

/-- C7. Writing two records consecutively to a fresh (non-existing) target
file produces exactly one header row followed by exactly two data rows, and
each data row has the same number of columns (17) as the header row. -/
theorem csv_two_rows_c7 (r1 r2 : ProfileRecord) :
    save_to_csv r2 (some (save_to_csv r1 none)) = [csvHeader, csvRow r1, csvRow r2]
    ∧ csvHeader.length = 17
    ∧ (csvRow r1).length = 17
    ∧ (csvRow r2).length = 17 :=
  ⟨rfl, rfl, rfl, rfl⟩

/-- C10. For every parsed document, the total playtime returned by the games
extractor equals the sum of the `hours_played` values over exactly those
entries of the returned games sequence whose `hours_played` is set, and it
equals 0 when no entry's playtime parsed, so entries with unset playtime
contribute nothing to the total. -/
theorem total_playtime_sum_c10 (soup : Node) :
    (extract_games_and_playtime soup).2 =
      (((extract_games_and_playtime soup).1).filterMap GameEntry.hours_played).sum
    ∧ (((extract_games_and_playtime soup).1).filterMap GameEntry.hours_played = [] →
        (extract_games_and_playtime soup).2 = 0) := by
  have h : (extract_games_and_playtime soup).2 =
      (((extract_games_and_playtime soup).1).filterMap GameEntry.hours_played).sum := by
    rw [extract_games_and_playtime, foldl_gameStep]
    simp
  exact ⟨h, fun hnil => by rw [h, hnil, List.sum_nil]⟩

/-- Witness for C10 at `docC4`, whose single entry has no parsed playtime:
the total is 0. -/
theorem total_playtime_sum_c10_witness :
    (extract_games_and_playtime docC4).2 =
      (((extract_games_and_playtime docC4).1).filterMap GameEntry.hours_played).sum
    ∧ (extract_games_and_playtime docC4).2 = 0 :=
  ⟨(total_playtime_sum_c10 docC4).1, (total_playtime_sum_c10 docC4).2 rfl⟩

/-- Counterexample to C1 as stated: on a document without the
`profile_badges` container (and without the friends containers), the
extractors raise `AttributeError` instead of yielding a missing sentinel and
producing the record. -/
theorem field_isolation_c1_counterexample :
    extract_basic_profile_info emptyDoc
      = .error "AttributeError: NoneType object has no attribute find"
    ∧ extract_friends emptyDoc
      = .error "AttributeError: NoneType object has no attribute find" :=
  ⟨rfl, rfl⟩

/-- C1 (amended). Fields guarded by presence checks yield the missing
sentinel when their DOM node is absent, but the badge-count lookup and the
total-friends lookup dereference their containers unconditionally: a missing
`profile_badges` container or a missing friends-links container makes the
extractor raise (the exception is caught only by the top-level handler,
which produces an error result instead of a record). -/
theorem field_isolation_c1 (soup : Node) :
    (soup.findFirst (isTagClass "div" "profile_badges") = none →
      ∃ e, extract_basic_profile_info soup = .error e)
    ∧ (soup.findFirst (isTagClass "div" friendsLinksClass) = none →
      ∃ e, extract_friends soup = .error e)
    ∧ (∀ r, extract_basic_profile_info soup = .ok r →
        (soup.findFirst (isTagClass "span" "actual_persona_name") = none →
          r.name = none)
        ∧ (soup.findFirst (isTagClass "div" "profile_in_game_header") = none →
          r.status = none)) := by
  refine ⟨?_, ?_, ?_⟩
  · intro hb
    cases hl : locationOf soup with
    | error e => exact ⟨e, by simp only [extract_basic_profile_info, hl]⟩
    | ok location =>
      have hnb : numberOfBadgesOf soup
          = .error "AttributeError: NoneType object has no attribute find" := by
        simp only [numberOfBadgesOf, hb]
      exact ⟨"AttributeError: NoneType object has no attribute find",
        by simp only [extract_basic_profile_info, hl, hnb]⟩
  · intro hf
    exact ⟨"AttributeError: NoneType object has no attribute find",
      by simp only [extract_friends, hf]⟩
  · intro r hr
    obtain ⟨location, nb, tg, _, _, _, hrec⟩ := extract_basic_ok soup r hr
    subst hrec
    constructor
    · intro hn
      simp only [nameOf, hn, Option.map_none']
    · intro hs
      simp only [statusOf, hs, Option.map_none']

/-- Witness for C1: the two raising branches at `emptyDoc`, and the sentinel
behaviour of a guarded field on `fullDoc`, where extraction succeeds with
the name span absent. -/
theorem field_isolation_c1_witness :
    (∃ e, extract_basic_profile_info emptyDoc = .error e)
    ∧ (∃ e, extract_friends emptyDoc = .error e)
    ∧ fullBasic.name = none :=
  ⟨(field_isolation_c1 emptyDoc).1 rfl,
   (field_isolation_c1 emptyDoc).2.1 rfl,
   (((field_isolation_c1 fullDoc).2.2 fullBasic rfl).1 rfl)⟩

/-- The characterization of `totalGamesSecond` when it returns: the badge
strategy's result when a `games owned` badge exists, the dictionary's
previous value otherwise. -/
theorem totalGamesSecond_ok (soup : Node) (tg1 v : Option String)
    (h : totalGamesSecond soup tg1 = .ok v) :
    v = match gamesOwnedTooltip soup with
        | some t => some (digitsOnly t)
        | none => tg1 := by
  rw [totalGamesSecond] at h
  cases hbd : soup.findFirst (isTagClass "div" "profile_badges") with
  | none => simp only [hbd] at h; exact Except.noConfusion h
  | some bd =>
    simp only [hbd] at h
    cases hpv : bd.findFirst (isTagClass "div" "profile_count_link_preview") with
    | none => simp only [hpv] at h; exact Except.noConfusion h
    | some pv =>
      simp only [hpv] at h
      cases hfb : (pv.findAllD (isTagClass "div" "profile_badges_badge")).find?
          (fun b => pyContains ((b.attr? "data-tooltip-html").getD "") "games owned") with
      | none =>
        simp only [hfb, Except.ok.injEq] at h
        simp only [gamesOwnedTooltip, hbd, hpv, hfb, Option.some_bind, Option.map_none']
        exact h.symm
      | some b =>
        simp only [hfb, Except.ok.injEq] at h
        simp only [gamesOwnedTooltip, hbd, hpv, hfb, Option.some_bind, Option.map_some']
        exact h.symm

/-- Counterexample to C2 as stated: in `c2Doc` the games-tab strategy yields
`"10"`, yet the recorded total-games value is the badge strategy's `"5"` —
the first strategy's value is replaced even though it yielded a value. -/
theorem total_games_strategy_c2_counterexample :
    extract_basic_profile_info c2Doc = .ok c2Basic
    ∧ gamesTabCount c2Doc = some "10"
    ∧ c2Basic.total_games = some "5"
    ∧ some "5" ≠ (some "10" : Option String) :=
  ⟨rfl, rfl, rfl, by decide⟩

/-- C2 (amended). The games-tab strategy's value is recorded first, but the
badge strategy runs unconditionally: whenever a badge tooltip containing
`games owned` exists, its digit string determines the recorded total games,
overwriting any games-tab value; the games-tab value survives only when no
such badge exists (and within the badge strategy the first matching badge
wins, per the `break`). -/
theorem total_games_strategy_c2 (soup : Node) (r : BasicProfile)
    (h : extract_basic_profile_info soup = .ok r) :
    r.total_games =
      match gamesOwnedTooltip soup with
      | some t => some (digitsOnly t)
      | none => gamesTabCount soup := by
  obtain ⟨location, nb, tg, _, _, htg, hrec⟩ := extract_basic_ok soup r h
  subst hrec
  show tg = _
  rw [totalGamesOf] at htg
  cases hld : soup.findFirst (isTagClass "div" "profile_item_links") with
  | none => simp only [hld] at htg; exact Except.noConfusion htg
  | some linksDiv =>
    simp only [hld] at htg
    cases hgt : linksDiv.findFirst isGamesTabLink with
    | none =>
      simp only [hgt] at htg
      have := totalGamesSecond_ok soup none tg htg
      rw [this]
      simp only [gamesTabCount, hld, hgt, Option.some_bind, Option.none_bind]
    | some gt =>
      simp only [hgt] at htg
      cases hsp : gt.findFirst (isTagClass "span" "profile_count_link_total") with
      | none => simp only [hsp] at htg; exact Except.noConfusion htg
      | some sp =>
        simp only [hsp] at htg
        have := totalGamesSecond_ok soup (some (pyStrip sp.innerText)) tg htg
        rw [this]
        simp only [gamesTabCount, hld, hgt, hsp, Option.some_bind, Option.map_some']

/-- Witness for C2 at `c2Doc`: the recorded value is the badge strategy's. -/
theorem total_games_strategy_c2_witness :
    c2Basic.total_games =
      match gamesOwnedTooltip c2Doc with
      | some t => some (digitsOnly t)
      | none => gamesTabCount c2Doc :=
  total_games_strategy_c2 c2Doc c2Basic rfl

/-- C4. For every game entry whose duration text fails to parse as a
floating-point hour value after truncating the `" hrs"` suffix, that one
entry's `hours_played` is left absent while the entry's name still appears
at its position in the output sequence, and other entries' parsing is
unaffected: the output list is exactly the per-entry results of all entries
in document order. No exception escapes the extractor —
`extract_games_and_playtime` is total by construction, since the only
fallible step (`float`) is caught per item. -/
theorem malformed_playtime_c4 (soup g nameDiv hoursDiv : Node)
    (_hg : g ∈ soup.findAllD (isTagClass "div" "recent_game"))
    (hn : g.findFirst (isTagClass "div" "game_name") = some nameDiv)
    (hh : g.findFirst (isTagClass "div" "game_info_details") = some hoursDiv)
    (hf : pyFloat? (pyStrip (pySplitHead hoursDiv.innerText " hrs")) = none) :
    processGame g = some { name := pyStrip nameDiv.innerText, hours_played := none }
    ∧ (extract_games_and_playtime soup).1 =
        (soup.findAllD (isTagClass "div" "recent_game")).filterMap processGame := by
  constructor
  · rw [processGame]
    simp only [hn, hh, hf]
  · rw [extract_games_and_playtime, foldl_gameStep]
    simp

/-- Witness for C4: the malformed entry `gBad` of `docC4` keeps its name and
loses only its playtime. -/
theorem malformed_playtime_c4_witness :
    processGame gBad = some { name := "Foo", hours_played := none }
    ∧ (extract_games_and_playtime docC4).1 =
        (docC4.findAllD (isTagClass "div" "recent_game")).filterMap processGame :=
  malformed_playtime_c4 docC4 gBad nameDivC4 hoursDivC4
    (List.mem_cons_self gBad []) rfl rfl rfl

/-- Inversion of `buildRecord`: when it succeeds, the games and playtime
fields come from `extract_games_and_playtime`, with 0 replaced by the
`"N/A"` sentinel. -/
theorem buildRecord_ok (soup : Node) (r : ProfileRecord)
    (h : buildRecord soup = .ok r) :
    r.games = (extract_games_and_playtime soup).1
    ∧ r.total_playtime_hours_on_recent_games =
        (if (extract_games_and_playtime soup).2 = 0 then PlaytimeVal.na
         else PlaytimeVal.num (extract_games_and_playtime soup).2) := by
  rw [buildRecord] at h
  cases hb : extract_basic_profile_info soup with
  | error e => simp only [hb] at h; exact Except.noConfusion h
  | ok basic =>
    simp only [hb] at h
    cases hfr : extract_friends soup with
    | error e => simp only [hfr] at h; exact Except.noConfusion h
    | ok fr =>
      simp only [hfr] at h
      cases hy : extract_years_of_service soup with
      | error e => simp only [hy] at h; exact Except.noConfusion h
      | ok d =>
        simp only [hy, Except.ok.injEq] at h
        subst h
        exact ⟨rfl, rfl⟩

/-- Inversion of `scrape_steam_profile`: a successful run means the record
was built from the fetched document. -/
theorem scrape_ok (fetch : String → HttpResponse) (input : String) (r : ProfileRecord)
    (h : scrape_steam_profile fetch input = .ok r) :
    buildRecord (fetch input).soup = .ok r := by
  rw [scrape_steam_profile] at h
  cases hgu : get_profile_url input with
  | none => simp only [hgu] at h; exact ScrapeResult.noConfusion h
  | some u =>
    have hu := get_profile_url_some input u hgu
    subst hu
    simp only [hgu] at h
    cases he : u == "" with
    | true => simp [he] at h
    | false =>
      simp only [he, Bool.false_eq_true, if_false] at h
      cases hst : (fetch u).status_code != 200 with
      | true => simp [hst] at h
      | false =>
        simp only [hst, Bool.false_eq_true, if_false] at h
        cases hbr : buildRecord (fetch u).soup with
        | error e => simp only [hbr] at h; exact ScrapeResult.noConfusion h
        | ok rec =>
          simp only [hbr, ScrapeResult.ok.injEq] at h
          rw [h]

/-- C8. For every fetched document containing zero game entries, the games
field of the produced record is the empty sequence and the total-playtime
field is the explicit `"N/A"` sentinel, never the numeric value zero. -/
theorem zero_games_sentinel_c8 (fetch : String → HttpResponse) (input : String)
    (r : ProfileRecord)
    (hok : scrape_steam_profile fetch input = .ok r)
    (hng : (fetch input).soup.findAllD (isTagClass "div" "recent_game") = []) :
    r.games = [] ∧ r.total_playtime_hours_on_recent_games = PlaytimeVal.na := by
  obtain ⟨hg, ht⟩ := buildRecord_ok _ r (scrape_ok fetch input r hok)
  have hgp : extract_games_and_playtime (fetch input).soup = ([], (0 : ℚ)) := by
    simp [extract_games_and_playtime, hng]
  rw [hgp] at hg ht
  exact ⟨hg, by rw [ht]; simp⟩

/-- Witness for C8: the game-free document `fullDoc` scrapes to a record
with an empty games list and the `"N/A"` playtime sentinel. -/
theorem zero_games_sentinel_c8_witness :
    fullRecord.games = []
    ∧ fullRecord.total_playtime_hours_on_recent_games = PlaytimeVal.na :=
  zero_games_sentinel_c8 fetchFull "https://steamcommunity.com/id/abc" fullRecord rfl rfl

/-- The head part of a Python `split` decomposes the string and is free of
the separator. -/
theorem pySplitHead_decomp (s sep : String) (hsep : sep.data ≠ []) :
    (∃ tail, s.data = (pySplitHead s sep).data ++ tail)
    ∧ pyContains (pySplitHead s sep) sep = false := by
  rw [pySplitHead]
  cases hm : splitFirstList sep.data s.data with
  | none =>
    refine ⟨⟨[], by simp⟩, ?_⟩
    rw [pyContains, hm]
    rfl
  | some pr =>
    obtain ⟨p, r⟩ := pr
    obtain ⟨hd, hn⟩ := splitFirstList_eq sep.data hsep s.data p r hm
    refine ⟨⟨sep.data ++ r, by rw [hd]; simp⟩, ?_⟩
    rw [pyContains]
    show (splitFirstList sep.data p).isSome = false
    rw [hn]
    rfl

/-- Counterexample to C3 as stated: for the friend block of `docC3`, whose
status line is exactly the spec's example `In-Game Half-Life 3`, the
recorded currently-played game is `" Half-Life 3"` with the leading space
kept — not the trimmed `"Half-Life 3"` the claim requires. -/
theorem friend_ingame_c3_counterexample :
    extract_friends docC3 = .ok
      { total_friends := "3", friends_names := ["PlayerOne"],
        friends_links := ["https://steamcommunity.com/id/friend1"],
        friends_status := ["In-Game"],
        friends_in_game := [some " Half-Life 3"] }
    ∧ some " Half-Life 3" ≠ (some "Half-Life 3" : Option String) :=
  ⟨rfl, by decide⟩

/-- C3 (amended). For every friend entry whose stripped trailing status line
contains the literal marker `In-Game`, the recorded status is exactly the
constant `"In-Game"` and the recorded currently-played game is the remainder
of the stripped line after the first occurrence of the marker, taken
verbatim (in particular the whitespace separating the marker from the game
name is kept, not trimmed); for every entry whose status line lacks the
marker, the status is the stripped trailing text and the
currently-played-game field is unset. -/
theorem friend_status_c3 (line2 : String) :
    (pyContains (pyStrip line2) "In-Game" = true →
      (classifyStatus line2).1 = "In-Game"
      ∧ ∃ pre rem, pyStrip line2 = pre ++ "In-Game" ++ rem
          ∧ pyContains pre "In-Game" = false
          ∧ (classifyStatus line2).2 = some rem)
    ∧ (pyContains (pyStrip line2) "In-Game" = false →
      (classifyStatus line2).1 = pyStrip line2
      ∧ (classifyStatus line2).2 = none) := by
  constructor
  · intro h
    have h2 : (splitFirstList "In-Game".data (pyStrip line2).data).isSome = true := h
    obtain ⟨⟨p, r⟩, hm⟩ := Option.isSome_iff_exists.mp h2
    obtain ⟨hd, hn⟩ := splitFirstList_eq "In-Game".data (by decide) (pyStrip line2).data p r hm
    constructor
    · simp only [classifyStatus, h, if_true]
    · refine ⟨String.mk p, String.mk r, ?_, ?_, ?_⟩
      · apply String.ext
        rw [String.data_append, String.data_append]
        exact hd
      · show (splitFirstList "In-Game".data p).isSome = false
        rw [hn]
        rfl
      · simp only [classifyStatus, h, if_true, pyAfterFirst?, hm]
  · intro h
    simp only [classifyStatus, h, Bool.false_eq_true, if_false]
    exact ⟨trivial, trivial⟩

/-- Witness for C3: the spec's example status line, and a markerless line. -/
theorem friend_status_c3_witness :
    ((classifyStatus "In-Game Half-Life 3").1 = "In-Game"
      ∧ ∃ pre rem, pyStrip "In-Game Half-Life 3" = pre ++ "In-Game" ++ rem
          ∧ pyContains pre "In-Game" = false
          ∧ (classifyStatus "In-Game Half-Life 3").2 = some rem)
    ∧ ((classifyStatus "Online").1 = pyStrip "Online"
      ∧ (classifyStatus "Online").2 = none) :=
  ⟨(friend_status_c3 "In-Game Half-Life 3").1 (by decide),
   (friend_status_c3 "Online").2 (by decide)⟩

/-- Counterexample to C5 as stated: `docC5` carries a years-of-service badge
whose tooltip lacks the substring `Member since `, and the extraction raises
`IndexError` instead of returning the unset value. -/
theorem years_of_service_c5_counterexample :
    extract_years_of_service docC5 = .error "IndexError: list index out of range"
    ∧ extract_years_of_service docC5 ≠ .ok none :=
  ⟨rfl, fun hcon => Except.noConfusion hcon⟩

/-- C5 (amended). When no years-of-service badge is present the extraction
returns the unset value; when the badge is present and its tooltip contains
`Member since `, the result is the segment of the tooltip following the
first occurrence of that prefix and cut before the next period; but when the
badge is present and the substring is absent, the extraction raises
`IndexError` (caught only by the top-level handler) instead of returning the
unset value. -/
theorem years_of_service_c5 (soup : Node) :
    (soup.findFirst isYearsBadge = none → extract_years_of_service soup = .ok none)
    ∧ (∀ badge, soup.findFirst isYearsBadge = some badge →
        (pyContains ((badge.attr? "data-tooltip-html").getD "") "Member since " = false →
          extract_years_of_service soup = .error "IndexError: list index out of range")
        ∧ (pyContains ((badge.attr? "data-tooltip-html").getD "") "Member since " = true →
          ∃ datePart pre tail,
            extract_years_of_service soup = .ok (some datePart)
            ∧ (badge.attr? "data-tooltip-html").getD ""
                = pre ++ "Member since " ++ (datePart ++ tail)
            ∧ pyContains pre "Member since " = false
            ∧ pyContains datePart "." = false)) := by
  constructor
  · intro h
    simp only [extract_years_of_service, h]
  · intro badge hb
    constructor
    · intro hnc
      cases hm : splitFirstList "Member since ".data
          ((badge.attr? "data-tooltip-html").getD "").data with
      | some pr =>
        have : pyContains ((badge.attr? "data-tooltip-html").getD "") "Member since " = true := by
          rw [pyContains, hm]; rfl
        rw [this] at hnc
        exact absurd hnc (by simp)
      | none =>
        simp only [extract_years_of_service, hb, pySplitSecond?, hm]
    · intro hc
      have h2 : (splitFirstList "Member since ".data
          ((badge.attr? "data-tooltip-html").getD "").data).isSome = true := hc
      obtain ⟨⟨p0, r0⟩, hm⟩ := Option.isSome_iff_exists.mp h2
      obtain ⟨hd0, hn0⟩ := splitFirstList_eq "Member since ".data (by decide) _ p0 r0 hm
      obtain ⟨⟨tail1, hseg⟩, _⟩ :=
        pySplitHead_decomp (String.mk r0) "Member since " (by decide)
      obtain ⟨⟨tail2, hdp⟩, hdot⟩ :=
        pySplitHead_decomp (pySplitHead (String.mk r0) "Member since ") "." (by decide)
      refine ⟨pySplitHead (pySplitHead (String.mk r0) "Member since ") ".",
        String.mk p0, String.mk (tail2 ++ tail1), ?_, ?_, ?_, hdot⟩
      · simp only [extract_years_of_service, hb, pySplitSecond?, hm]
      · have hr0 : r0 = (pySplitHead (pySplitHead (String.mk r0) "Member since ") ".").data
            ++ (tail2 ++ tail1) := by
          rw [hdp] at hseg
          simpa [List.append_assoc] using hseg
        apply String.ext
        simp only [String.data_append]
        conv_lhs => rw [hd0, hr0]
      · show (splitFirstList "Member since ".data p0).isSome = false
        rw [hn0]
        rfl

/-- Witness for C5: the badge-free `emptyDoc`, the malformed-tooltip
`docC5`, and the well-formed `docC5b`. -/
theorem years_of_service_c5_witness :
    extract_years_of_service emptyDoc = .ok none
    ∧ extract_years_of_service docC5 = .error "IndexError: list index out of range"
    ∧ ∃ datePart pre tail,
        extract_years_of_service docC5b = .ok (some datePart)
        ∧ (badgeC5b.attr? "data-tooltip-html").getD ""
            = pre ++ "Member since " ++ (datePart ++ tail)
        ∧ pyContains pre "Member since " = false
        ∧ pyContains datePart "." = false :=
  ⟨(years_of_service_c5 emptyDoc).1 rfl,
   ((years_of_service_c5 docC5).2 badgeC5 rfl).1 (by decide),
   ((years_of_service_c5 docC5b).2 badgeC5b rfl).2 (by decide)⟩

end Scraper
